import Mathlib

/-!
A shallow embedding of the botic date/time library (src/: date.rs, time.rs,
month.rs, year.rs, datetime.rs, timestamp.rs, timezone.rs, tai.rs) and proofs
about the claims of its specification.

Machine integers are modelled as `Int` with explicit wrapping where the Rust
code performs an `as` cast or a `wrapping_`/`overflowing_` operation; plain
Rust arithmetic that cannot overflow at the call sites in question is modelled
as exact `Int` arithmetic, and where an overflow can occur the release-mode
wrapping semantics of the corresponding cast is made explicit.  Rust's `/` and
`%` on signed integers truncate toward zero, which is `Int.tdiv` / `Int.tmod`.
The process-global leap-second registry (a `RwLock<Vec<DateTime<Utc>>>`) is
modelled as an explicit list value threaded through the functions; the
unbounded `while` loop of `Tai::offset_from_local_naive` is modelled with an
explicit fuel parameter, returning `none` exactly when the loop has not
converged within the given number of iterations.
-/

namespace Botic

/-- Wrapping cast to `i16` (Rust `as i16` / `i16::wrapping_*`). -/
def wrapI16 (x : Int) : Int := (x + 32768) % 65536 - 32768

/-- Wrapping cast to `u8` (Rust `as u8`). -/
def wrapU8 (x : Int) : Int := x % 256

/-- Wrapping cast to `u16` (Rust `as u16` and wrapping `u16` subtraction). -/
def wrapU16 (x : Int) : Int := x % 65536

/-- Wrapping cast to `u32` (Rust wrapping `u32` arithmetic). -/
def wrapU32 (x : Int) : Int := x % 4294967296

/-- Wrapping cast to `i64` (Rust `i64::overflowing_add` result value). -/
def wrapI64 (x : Int) : Int := (x + 9223372036854775808) % 18446744073709551616 - 9223372036854775808

/-- `Year::is_leap_year` (year.rs): divisible by 4 and (not divisible by 100
or divisible by 400); Rust `%` on `i16` is truncated remainder. -/
def Year.is_leap_year (y : Int) : Bool :=
  Int.tmod y 4 == 0 && (!(Int.tmod y 100 == 0) || Int.tmod y 400 == 0)

/-- `Month` (month.rs): a closed 12-valued enumeration. -/
inductive Month where
  | january | february | march | april | may | june
  | july | august | september | october | november | december
deriving DecidableEq

/-- `Month as u8` / `Month::number` (month.rs): January = 1 .. December = 12. -/
def Month.number : Month → Int
  | .january => 1 | .february => 2 | .march => 3 | .april => 4
  | .may => 5 | .june => 6 | .july => 7 | .august => 8
  | .september => 9 | .october => 10 | .november => 11 | .december => 12

/-- `Month::previous` (month.rs): January wraps around to December. -/
def Month.previous : Month → Month
  | .january => .december | .february => .january | .march => .february
  | .april => .march | .may => .april | .june => .may | .july => .june
  | .august => .july | .september => .august | .october => .september
  | .november => .october | .december => .november

/-- `Month::last_day_ordinal_common` (month.rs). -/
def Month.last_day_ordinal_common : Month → Int
  | .january => 31 | .february => 59 | .march => 90 | .april => 120
  | .may => 151 | .june => 181 | .july => 212 | .august => 243
  | .september => 273 | .october => 304 | .november => 334 | .december => 365

/-- `Month::last_day_ordinal_leap` (month.rs). -/
def Month.last_day_ordinal_leap : Month → Int
  | .january => 31 | .february => 60 | .march => 91 | .april => 121
  | .may => 152 | .june => 182 | .july => 213 | .august => 244
  | .september => 274 | .october => 305 | .november => 335 | .december => 366

/-- `Month::last_day_ordinal` (month.rs). -/
def Month.last_day_ordinal (m : Month) (leap_year : Bool) : Int :=
  if leap_year then m.last_day_ordinal_leap else m.last_day_ordinal_common

/-- `Month::from_ordinal_common` (month.rs): the if-chain on a `u16` ordinal. -/
def Month.from_ordinal_common (ordinal : Int) : Month :=
  if ordinal < 31 then .january
  else if ordinal < 59 then .february
  else if ordinal < 90 then .march
  else if ordinal < 120 then .april
  else if ordinal < 151 then .may
  else if ordinal < 181 then .june
  else if ordinal < 212 then .july
  else if ordinal < 243 then .august
  else if ordinal < 273 then .september
  else if ordinal < 304 then .october
  else if ordinal < 334 then .november
  else .december

/-- `Month::from_ordinal_leap` (month.rs). -/
def Month.from_ordinal_leap (ordinal : Int) : Month :=
  if ordinal < 31 then .january
  else if ordinal < 60 then .february
  else if ordinal < 91 then .march
  else if ordinal < 121 then .april
  else if ordinal < 152 then .may
  else if ordinal < 182 then .june
  else if ordinal < 213 then .july
  else if ordinal < 244 then .august
  else if ordinal < 274 then .september
  else if ordinal < 305 then .october
  else if ordinal < 335 then .november
  else .december

/-- `Month::from_ordinal` (month.rs). -/
def Month.from_ordinal (ordinal : Int) (leap_year : Bool) : Month :=
  if leap_year then Month.from_ordinal_leap ordinal else Month.from_ordinal_common ordinal

/-- Derived `Ord` on the Rust `Month` enum compares by discriminant,
which equals the month number. -/
def Month.cmp (a b : Month) : Ordering := compare a.number b.number

/-- `Date` (date.rs): a (Year, Month, day) triple; `year` holds the `i16`
value of the wrapped `Year`, `day` holds the `u8` value. -/
structure Date where
  year : Int
  month : Month
  day : Int
deriving DecidableEq

/-- `LeapDayNotInLeapYearError` (date.rs): a newtype around the `Year` it reports. -/
structure LeapDayNotInLeapYearError where
  year : Int
deriving DecidableEq

/-- `Date::is_leap_year` (date.rs): delegates to the year. -/
def Date.is_leap_year (d : Date) : Bool := Year.is_leap_year d.year

/-- `Date::add_years` (date.rs): adds to the year field (release-mode `i16`
addition wraps), rejecting a Feb-29 start when the target year is not leap;
the error is built from `self.year`, the starting year. -/
def Date.add_years (d : Date) (years : Int) : Except LeapDayNotInLeapYearError Date :=
  let year := wrapI16 (d.year + years)
  if d.day = 29 ∧ d.month = Month.february ∧ Year.is_leap_year year = false then
    .error ⟨d.year⟩
  else
    .ok ⟨year, d.month, d.day⟩

/-- `Date::days_after_common_era` (date.rs): `year = self.year.wrapping_sub(1)`,
leap years counted with truncating `i16` division, and the day-of-year prefix
taken from `self.month.previous().last_day_ordinal(..)`. -/
def Date.days_after_common_era (d : Date) : Int :=
  let year := wrapI16 (d.year - 1)
  let leap_years := Int.tdiv year 4 - Int.tdiv year 100 + Int.tdiv year 400
  let month_last_day_ordinal := (d.month.previous).last_day_ordinal d.is_leap_year
  year * 365 + leap_years + month_last_day_ordinal + d.day - 1

/-- `Date::from_days_after_common_era` (date.rs): era decomposition with
truncating division, `year as i16` and `ordinal as u16` wrapping casts, and a
wrapping `u16` subtraction cast down to `u8` for the day. -/
def Date.from_days_after_common_era (days : Int) : Date :=
  let era := Int.tdiv days 146097
  let day_of_era := days - era * 146097
  let year_of_era := Int.tdiv day_of_era 365
  let year := year_of_era + era * 400
  let ordinal := day_of_era - (365 * year + Int.tdiv year 4 - Int.tdiv year 100)
  let year2 := wrapI16 year
  let month := Month.from_ordinal (wrapU16 ordinal) (Year.is_leap_year year2)
  let day := wrapU16 (wrapU16 ordinal - month.previous.last_day_ordinal (Year.is_leap_year year2))
  ⟨year2, month, wrapU8 day⟩

/-- `Date::add_days` (date.rs): converts to the day count, adds, converts
back; returns only the recomputed `Date`. -/
def Date.add_days (d : Date) (days : Int) : Date :=
  Date.from_days_after_common_era (d.days_after_common_era + days)

/-- `Ord for Date` (date.rs): the year/month/day if-chain. -/
def Date.cmp (a b : Date) : Ordering :=
  let year_ordering := compare a.year b.year
  let month_ordering := Month.cmp a.month b.month
  let day_ordering := compare a.day b.day
  if year_ordering ≠ Ordering.eq then year_ordering
  else if month_ordering ≠ Ordering.eq then month_ordering
  else if day_ordering ≠ Ordering.eq then day_ordering
  else Ordering.eq

/-- `Time` (time.rs): hour/minute/second are `u8` values, nanosecond a `u32` value. -/
structure Time where
  hour : Int
  minute : Int
  second : Int
  nanosecond : Int
deriving DecidableEq

/-- `InvalidTimeError` (time.rs): carries the four offending field values. -/
structure InvalidTimeError where
  hour : Int
  minute : Int
  second : Int
  nanosecond : Int
deriving DecidableEq

/-- `Time::MIDNIGHT` (time.rs). -/
def Time.midnight : Time := ⟨0, 0, 0, 0⟩

/-- `Time::from_hms_nano` (time.rs): the validation chain; on success it calls
`from_hms_unchecked(hour, minute, second)`, which sets `nanosecond: 0`. -/
def Time.from_hms_nano (hour minute second nanosecond : Int) :
    Except InvalidTimeError Time :=
  if 24 ≤ hour then .error ⟨hour, minute, second, nanosecond⟩
  else if 60 ≤ minute then .error ⟨hour, minute, second, nanosecond⟩
  else if 60 < second then .error ⟨hour, minute, second, nanosecond⟩
  else if 1000000000 ≤ nanosecond then .error ⟨hour, minute, second, nanosecond⟩
  else if second = 60 ∧ (minute ≠ 59 ∨ hour ≠ 23) then .error ⟨hour, minute, second, nanosecond⟩
  else .ok ⟨hour, minute, second, 0⟩

/-- `Time::add_minutes_overflowing` (time.rs): note the hour carry is computed
from `self.hour as isize + minutes`, exactly as in the source. -/
def Time.add_minutes_overflowing (t : Time) (minutes : Int) : Time × Bool :=
  let total_minutes := Int.tmod (t.minute + minutes) 60
  let total_minutes := total_minutes + 60 * (if total_minutes < 0 then 1 else 0)
  let added_hours := Int.tdiv (t.hour + minutes) 60
  let total_hours := t.hour + added_hours
  let overflow := decide (0 > total_hours) || decide (total_hours ≥ 24)
  let total_hours2 := Int.tmod total_hours 24 + 24 * (if total_hours < 0 then 1 else 0)
  (⟨wrapU8 total_hours2, wrapU8 total_minutes, t.second, t.nanosecond⟩, overflow)

/-- `Time::add_seconds_overflowing` (time.rs): note the hour carry is computed
from `self.hour as isize + added_minutes`, exactly as in the source. -/
def Time.add_seconds_overflowing (t : Time) (seconds : Int) : Time × Bool :=
  let total_seconds := Int.tmod (t.second + seconds) 60
  let total_seconds := total_seconds + 60 * (if total_seconds < 0 then 1 else 0)
  let added_minutes := Int.tdiv (t.second + seconds) 60
  let total_minutes := Int.tmod (t.minute + added_minutes) 60
  let total_minutes := total_minutes + 60 * (if total_minutes < 0 then 1 else 0)
  let added_hours := Int.tdiv (t.hour + added_minutes) 60
  let total_hours := t.hour + added_hours
  let overflow := decide (0 > total_hours) || decide (total_hours ≥ 24)
  let total_hours2 := Int.tmod total_hours 24 + 24 * (if total_hours < 0 then 1 else 0)
  (⟨wrapU8 total_hours2, wrapU8 total_minutes, wrapU8 total_seconds, t.nanosecond⟩, overflow)

/-- `Time::add_nanoseconds_overflowing` (time.rs). -/
def Time.add_nanoseconds_overflowing (t : Time) (nanoseconds : Int) : Time × Bool :=
  let total_nanos := Int.tmod (t.nanosecond + nanoseconds) 1000000000
  let total_nanos := total_nanos + 1000000000 * (if total_nanos < 0 then 1 else 0)
  let added_seconds := Int.tdiv (t.nanosecond + nanoseconds) 1000000000
  let total_seconds := Int.tmod (t.second + added_seconds) 60
  let total_seconds := total_seconds + 60 * (if total_seconds < 0 then 1 else 0)
  let added_minutes := Int.tdiv (t.second + added_seconds) 60
  let total_minutes := Int.tmod (t.minute + added_minutes) 60
  let total_minutes := total_minutes + 60 * (if total_minutes < 0 then 1 else 0)
  let added_hours := Int.tdiv (t.minute + added_minutes) 60
  let total_hours := t.hour + added_hours
  let overflow := decide (0 > total_hours) || decide (total_hours ≥ 24)
  let total_hours2 := Int.tmod total_hours 24 + 24 * (if total_hours < 0 then 1 else 0)
  (⟨wrapU8 total_hours2, wrapU8 total_minutes, wrapU8 total_seconds, wrapU32 total_nanos⟩, overflow)

/-- `Time::seconds_from_midnight` (time.rs): computed in wrapping `u32`
arithmetic with the multipliers 3_600_000_000 / 60_000_000 / 1_000_000 that
appear in the source. -/
def Time.seconds_from_midnight (t : Time) : Int :=
  wrapU32 (t.hour * 3600000000 + t.minute * 60000000 + t.second * 1000000)

/-- `Ord for Time` (time.rs): the hour/minute/second/nanosecond if-chain. -/
def Time.cmp (a b : Time) : Ordering :=
  let hour_ordering := compare a.hour b.hour
  let minute_ordering := compare a.minute b.minute
  let second_ordering := compare a.second b.second
  let nano_ordering := compare a.nanosecond b.nanosecond
  if hour_ordering ≠ Ordering.eq then hour_ordering
  else if minute_ordering ≠ Ordering.eq then minute_ordering
  else if second_ordering ≠ Ordering.eq then second_ordering
  else if nano_ordering ≠ Ordering.eq then nano_ordering
  else Ordering.eq

/-- `Timestamp` (timestamp.rs): `i64` seconds and `u32` nanoseconds. -/
structure Timestamp where
  seconds : Int
  nanoseconds : Int
deriving DecidableEq

/-- `Timestamp::add_seconds_overflowing` (timestamp.rs): `i64::overflowing_add`. -/
def Timestamp.add_seconds_overflowing (t : Timestamp) (seconds : Int) : Timestamp × Bool :=
  let s := t.seconds + seconds
  (⟨wrapI64 s, t.nanoseconds⟩, decide (wrapI64 s ≠ s))

/-- `Timestamp::add_nanoseconds_overflowing` (timestamp.rs): the total seconds
are reduced with `% 60`, exactly as in the source. -/
def Timestamp.add_nanoseconds_overflowing (t : Timestamp) (nanoseconds : Int) : Timestamp × Bool :=
  let total_nanos := Int.tmod (t.nanoseconds + nanoseconds) 1000000000
  let total_nanos := total_nanos + 1000000000 * (if total_nanos < 0 then 1 else 0)
  let added_seconds := Int.tdiv (t.nanoseconds + nanoseconds) 1000000000
  let total_seconds := Int.tmod (t.seconds + added_seconds) 60
  let overflow := decide (0 > total_seconds)
  let total_seconds := total_seconds + 60 * (if total_seconds < 0 then 1 else 0)
  (⟨total_seconds, wrapU32 total_nanos⟩, overflow)

/-- `NaiveDateTime` (datetime.rs): a Date plus a Time. -/
structure NaiveDateTime where
  date : Date
  time : Time
deriving DecidableEq

/-- `Date::UNIX_EPOCH.days_after_common_era()` (the constant used by
`NaiveDateTime::timestamp` and `from_timestamp`). -/
def unix_epoch_days : Int :=
  Date.days_after_common_era ⟨1970, Month.january, 1⟩

/-- `NaiveDateTime::timestamp` (datetime.rs). -/
def NaiveDateTime.timestamp (ndt : NaiveDateTime) : Timestamp :=
  let days := ndt.date.days_after_common_era - unix_epoch_days
  let seconds := days * 86400 + ndt.time.seconds_from_midnight
  ⟨seconds, ndt.time.nanosecond⟩

/-- `NaiveDateTime::from_timestamp` (datetime.rs): truncating `i64` division
and remainder on the day boundary, then `Time::MIDNIGHT` shifted with the
overflowing adds. -/
def NaiveDateTime.from_timestamp (ts : Timestamp) : NaiveDateTime :=
  let days_after_unix_epoch := Int.tdiv ts.seconds 86400
  let days_after_ce := days_after_unix_epoch + unix_epoch_days
  let date := Date.from_days_after_common_era days_after_ce
  let seconds_after_midnight := Int.tmod ts.seconds 86400
  let time := ((Time.midnight.add_seconds_overflowing seconds_after_midnight).1.add_nanoseconds_overflowing ts.nanoseconds).1
  ⟨date, time⟩

/-- `NaiveDateTime::add_seconds_overflowing` (datetime.rs): round-trips
through the timestamp. -/
def NaiveDateTime.add_seconds_overflowing (ndt : NaiveDateTime) (seconds : Int) :
    NaiveDateTime × Bool :=
  let r := ndt.timestamp.add_seconds_overflowing seconds
  (NaiveDateTime.from_timestamp r.1, r.2)

/-- Derived `PartialEq for NaiveDateTime` (datetime.rs): field-wise equality
of the date and time components. -/
def NaiveDateTime.beq (a b : NaiveDateTime) : Bool :=
  a.date.year == b.date.year && a.date.month.number == b.date.month.number &&
  a.date.day == b.date.day && a.time.hour == b.time.hour &&
  a.time.minute == b.time.minute && a.time.second == b.time.second &&
  a.time.nanosecond == b.time.nanosecond

/-- `Ord for NaiveDateTime` (datetime.rs): date ordering, then time ordering. -/
def NaiveDateTime.cmp (a b : NaiveDateTime) : Ordering :=
  let date_ordering := Date.cmp a.date b.date
  let time_ordering := Time.cmp a.time b.time
  if date_ordering ≠ Ordering.eq then date_ordering
  else if time_ordering ≠ Ordering.eq then time_ordering
  else Ordering.eq

/-- `Utc` (timezone.rs): the unit UTC zone policy. -/
structure Utc where
deriving DecidableEq

/-- `UtcOffset` (timezone.rs): a signed seconds offset. -/
structure UtcOffset where
  offset_seconds : Int
deriving DecidableEq

/-- `UtcOffset::from_seconds` (timezone.rs). -/
def UtcOffset.from_seconds (seconds : Int) : UtcOffset := ⟨seconds⟩

/-- `DateTime<Z>` (datetime.rs): a UTC-reference naive date-time plus a zone
policy value. -/
structure DateTime (Z : Type) where
  utc_datetime : NaiveDateTime
  timezone : Z

/-- `DateTime::from_utc` (datetime.rs). -/
def DateTime.from_utc {Z : Type} (utc_datetime : NaiveDateTime) (timezone : Z) : DateTime Z :=
  ⟨utc_datetime, timezone⟩

/-- `PartialEq<DateTime<Other>> for DateTime<Tz>` (datetime.rs): compares only
the stored UTC-reference naive date-times. -/
def DateTime.beq {A B : Type} (a : DateTime A) (b : DateTime B) : Bool :=
  NaiveDateTime.beq a.utc_datetime b.utc_datetime

/-- `PartialOrd`/`Ord for DateTime` (datetime.rs): compares only the stored
UTC-reference naive date-times. -/
def DateTime.cmp {A B : Type} (a : DateTime A) (b : DateTime B) : Ordering :=
  NaiveDateTime.cmp a.utc_datetime b.utc_datetime

/-- `Hash for DateTime` (datetime.rs): feeds only `self.utc_datetime` to the
hasher; a hasher is modelled as a state-transition function on its state. -/
def DateTime.hash {Z : Type} (hasher : NaiveDateTime → Nat → Nat) (a : DateTime Z)
    (state : Nat) : Nat :=
  hasher a.utc_datetime state

/-- `UnexpectedLeapSecond` (tai.rs). -/
structure UnexpectedLeapSecond where
  given_dt : NaiveDateTime
deriving DecidableEq

/-- `LeapSeconds::leap_seconds_before_inclusive` (tai.rs): counts registry
entries until the first entry greater than the queried instant. -/
def leap_seconds_before_inclusive : List (DateTime Utc) → DateTime Utc → Nat
  | [], _ => 0
  | e :: rest, dt =>
    if DateTime.cmp e dt = Ordering.gt then 0
    else leap_seconds_before_inclusive rest dt + 1

/-- The scan-and-insert of `LeapSeconds::add_leap_second` (tai.rs): walk past
smaller entries, return the registry unchanged on an equal entry, otherwise
insert before the first greater entry (or at the end). -/
def insert_leap (entry : DateTime Utc) : List (DateTime Utc) → List (DateTime Utc)
  | [] => [entry]
  | e :: rest =>
    match DateTime.cmp e entry with
    | Ordering.gt => entry :: e :: rest
    | Ordering.eq => e :: rest
    | Ordering.lt => e :: insert_leap entry rest

/-- `LeapSeconds::add_leap_second` (tai.rs): the inserted instant is the given
date at `Time::MIDNIGHT` in UTC. -/
def add_leap_second (reg : List (DateTime Utc)) (day : Date) : List (DateTime Utc) :=
  insert_leap (DateTime.from_utc ⟨day, Time.midnight⟩ ⟨⟩) reg

/-- One iteration of the fixed-point loop in `Tai::offset_from_local_naive`
(tai.rs): shift the local value by the current count and re-count. -/
def tai_step (reg : List (DateTime Utc)) (date_time : NaiveDateTime) (p : Nat) : Nat :=
  leap_seconds_before_inclusive reg
    (DateTime.from_utc (date_time.add_seconds_overflowing (Int.ofNat p)).1 ⟨⟩)

/-- The `while past_leap_seconds != prev_pls` loop of
`Tai::offset_from_local_naive` (tai.rs), with an explicit fuel bound: `none`
means the loop has not converged within `fuel` iterations. -/
def tai_loop (reg : List (DateTime Utc)) (date_time : NaiveDateTime) :
    Nat → Nat → Nat → Option Nat
  | fuel, p, prev =>
    if p = prev then some p
    else
      match fuel with
      | 0 => none
      | Nat.succ f => tai_loop reg date_time f (tai_step reg date_time p) p

/-- `Tai::offset_from_local_naive` (tai.rs): reject a leap-second local value,
seed the count from the unshifted local value, run the fixed-point loop, and
return `-(past_leap_seconds + 10)` seconds.  `none` means the source's
unbounded loop has not converged within `fuel` iterations. -/
def tai_offset_from_local_naive (reg : List (DateTime Utc)) (date_time : NaiveDateTime)
    (fuel : Nat) : Option (Except UnexpectedLeapSecond UtcOffset) :=
  if date_time.time.second = 60 then
    some (.error ⟨date_time⟩)
  else
    (tai_loop reg date_time fuel
        (leap_seconds_before_inclusive reg (DateTime.from_utc date_time ⟨⟩)) 0).map
      (fun p => .ok (UtcOffset.from_seconds (-(Int.ofNat p + 10))))

/-- A concrete registry content for exercising the fixed-point loop: sixty-three
dates of early 1900 followed by 2105-12-15, all inserted through
`add_leap_second`. -/
def cycling_dates : List Date :=
  ((List.range 31).map fun i => ⟨1900, Month.january, (i : Int) + 1⟩)
  ++ ((List.range 28).map fun i => ⟨1900, Month.february, (i : Int) + 1⟩)
  ++ ((List.range 4).map fun i => ⟨1900, Month.march, (i : Int) + 1⟩)
  ++ [⟨2105, Month.december, 15⟩]

/-- The registry built by feeding `cycling_dates` to `add_leap_second`
(64 entries). -/
def cycling_registry : List (DateTime Utc) := List.foldl add_leap_second [] cycling_dates

/-- A concrete valid local date-time (1970-01-28 11:55:29, second ≠ 60) on
which the fixed-point loop of `Tai::offset_from_local_naive` is exercised. -/
def cycling_local : NaiveDateTime := ⟨⟨1970, Month.january, 28⟩, ⟨11, 55, 29, 0⟩⟩

end Botic

namespace Botic

/-- Helper: derived `PartialEq` on the Rust `Month` enum compares
discriminants; discriminants determine the variant. -/
theorem month_number_eq_iff (a b : Month) : a.number = b.number ↔ a = b := by
  cases a <;> cases b <;> simp [Month.number]

/-- Helper: the field-wise `PartialEq` of `NaiveDateTime` agrees with
structural equality. -/
theorem ndt_beq_iff (a b : NaiveDateTime) : NaiveDateTime.beq a b = true ↔ a = b := by
  obtain ⟨⟨y1, m1, d1⟩, ⟨h1, mi1, s1, n1⟩⟩ := a
  obtain ⟨⟨y2, m2, d2⟩, ⟨h2, mi2, s2, n2⟩⟩ := b
  simp [NaiveDateTime.beq, month_number_eq_iff, NaiveDateTime.mk.injEq, Date.mk.injEq,
    Time.mk.injEq]
  tauto

/-- Helper for the loop divergence: from either of the states (count 64,
previous 63) or (count 63, previous 64) the loop never exits, for any fuel,
because `tai_step` maps 63 to 64 and 64 back to 63 on `cycling_registry` and
`cycling_local`. -/
theorem tai_loop_cycle : ∀ f, tai_loop cycling_registry cycling_local f 64 63 = none
    ∧ tai_loop cycling_registry cycling_local f 63 64 = none := by
  intro f
  induction f with
  | zero => exact ⟨rfl, rfl⟩
  | succ f ih =>
    have h64 : tai_step cycling_registry cycling_local 64 = 63 := by decide
    have h63 : tai_step cycling_registry cycling_local 63 = 64 := by decide
    refine ⟨?_, ?_⟩
    · have h : tai_loop cycling_registry cycling_local (f + 1) 64 63
          = tai_loop cycling_registry cycling_local f
              (tai_step cycling_registry cycling_local 64) 64 := by
        simp [tai_loop]
      rw [h, h64]
      exact ih.2
    · have h : tai_loop cycling_registry cycling_local (f + 1) 63 64
          = tai_loop cycling_registry cycling_local f
              (tai_step cycling_registry cycling_local 63) 63 := by
        simp [tai_loop]
      rw [h, h63]
      exact ih.1

/-- Claim C1: the claim says `from_days_after_common_era` inverts
`days_after_common_era` on every in-range date.  It does not: for 2000-01-02
(day-count 730486) the round trip returns the garbage date 2000-12-66, because
the decoder subtracts `365 * year` for the absolute year where the year-of-era
belongs (and omits the `/400` term), and the encoder takes January's day-of-year
prefix from `Month::December` via `previous()`. -/
theorem days_after_ce_round_trip_fails :
    Date.from_days_after_common_era (Date.days_after_common_era ⟨2000, Month.january, 2⟩)
      = ⟨2000, Month.december, 66⟩
  ∧ Date.from_days_after_common_era (Date.days_after_common_era ⟨2000, Month.january, 2⟩)
      ≠ ⟨2000, Month.january, 2⟩ :=
  ⟨by decide, by decide⟩

/-- Claim C2: the claim says `from_timestamp (timestamp t) = t` with
`timestamp` counting 86400 seconds per day plus the time's seconds from
midnight.  At 1970-01-01 00:00:01 the code's timestamp is 1_000_000 seconds
(`Time::seconds_from_midnight` multiplies the second field by 1_000_000), and
the round trip returns a different `NaiveDateTime`. -/
theorem naive_datetime_timestamp_round_trip_fails :
    NaiveDateTime.timestamp ⟨⟨1970, Month.january, 1⟩, ⟨0, 0, 1, 0⟩⟩ = ⟨1000000, 0⟩
  ∧ NaiveDateTime.from_timestamp
      (NaiveDateTime.timestamp ⟨⟨1970, Month.january, 1⟩, ⟨0, 0, 1, 0⟩⟩)
      ≠ ⟨⟨1970, Month.january, 1⟩, ⟨0, 0, 1, 0⟩⟩ :=
  ⟨by decide, by decide⟩

/-- Claim C3: with an empty registry the TAI offset of local 2000-01-01
00:00:00 is -10 seconds; after `add_leap_second(2000-01-01)` the offset of
local 2000-01-02 00:00:00 is -11 seconds; inserting the same date a second
time leaves the registry, and hence every offset computed from it, unchanged.
`some` means the source's fixed-point loop converged. -/
theorem tai_offset_concrete_values :
    tai_offset_from_local_naive [] ⟨⟨2000, Month.january, 1⟩, Time.midnight⟩ 5
      = some (.ok (UtcOffset.from_seconds (-10)))
  ∧ tai_offset_from_local_naive (add_leap_second [] ⟨2000, Month.january, 1⟩)
      ⟨⟨2000, Month.january, 2⟩, Time.midnight⟩ 5
      = some (.ok (UtcOffset.from_seconds (-11)))
  ∧ add_leap_second (add_leap_second [] ⟨2000, Month.january, 1⟩) ⟨2000, Month.january, 1⟩
      = add_leap_second [] ⟨2000, Month.january, 1⟩
  ∧ tai_offset_from_local_naive
      (add_leap_second (add_leap_second [] ⟨2000, Month.january, 1⟩) ⟨2000, Month.january, 1⟩)
      ⟨⟨2000, Month.january, 2⟩, Time.midnight⟩ 5
      = some (.ok (UtcOffset.from_seconds (-11))) :=
  ⟨rfl, rfl, rfl, rfl⟩

/-- Claim C4: the claim says the minute/second adds shift the time by exactly
the delta modulo one day.  They do not: adding 40 minutes to 00:30:00 yields
00:10:00 (claim: 01:10:00) and adding 60 seconds to 00:59:00 yields 00:00:00
(claim: 01:00:00), both with overflow flag `false`, because the hour carry is
computed from `self.hour` instead of the minute total. -/
theorem time_add_minutes_seconds_carry_broken :
    Time.add_minutes_overflowing ⟨0, 30, 0, 0⟩ 40 = (⟨0, 10, 0, 0⟩, false)
  ∧ Time.add_minutes_overflowing ⟨0, 30, 0, 0⟩ 40 ≠ (⟨1, 10, 0, 0⟩, false)
  ∧ Time.add_seconds_overflowing ⟨0, 59, 0, 0⟩ 60 = (⟨0, 0, 0, 0⟩, false)
  ∧ Time.add_seconds_overflowing ⟨0, 59, 0, 0⟩ 60 ≠ (⟨1, 0, 0, 0⟩, false) :=
  ⟨by decide, by decide, by decide, by decide⟩

/-- Claim C5: the claim says a successful `from_hms_nano` preserves all four
inputs.  The error conditions match the code, but the success path calls
`from_hms_unchecked(hour, minute, second)`, which zeroes the nanosecond: for
input (0,0,0,5) the result carries nanosecond 0, not 5. -/
theorem from_hms_nano_drops_nanosecond :
    Time.from_hms_nano 0 0 0 5 = .ok ⟨0, 0, 0, 0⟩
  ∧ Time.from_hms_nano 0 0 0 5 ≠ .ok ⟨0, 0, 0, 5⟩ := by
  refine ⟨rfl, ?_⟩
  rw [show Time.from_hms_nano 0 0 0 5 = .ok ⟨0, 0, 0, 0⟩ from rfl]
  simp

/-- Claim C6: the claim says the fixed-point loop of
`Tai::offset_from_local_naive` terminates for every local value with
second ≠ 60 and every registry contents.  It does not: on `cycling_registry`
(64 entries, all inserted through `add_leap_second`) and the valid local value
1970-01-28 11:55:29 the recomputed count alternates between 63 and 64 forever
— the local value shifted by 63 and 64 seconds decodes (through the broken
timestamp/date conversions) to dates on the two sides of a wrap of the `u8`
day byte, so the count is not monotone — and the loop never exits, whatever
fuel it is given. -/
theorem tai_local_offset_loop_diverges :
    ∀ fuel, tai_offset_from_local_naive cycling_registry cycling_local fuel = none := by
  intro fuel
  have hsec : ¬ (cycling_local.time.second = 60) := by decide
  have hseed : leap_seconds_before_inclusive cycling_registry
      (DateTime.from_utc cycling_local ⟨⟩) = 63 := by decide
  rw [tai_offset_from_local_naive, if_neg hsec, hseed]
  cases fuel with
  | zero => rfl
  | succ f =>
    have h63 : tai_step cycling_registry cycling_local 63 = 64 := by decide
    have h : tai_loop cycling_registry cycling_local (f + 1) 63 0
        = tai_loop cycling_registry cycling_local f
            (tai_step cycling_registry cycling_local 63) 63 := by
      simp [tai_loop]
    rw [h, h63, (tai_loop_cycle f).1]
    rfl

/-- Claim C7: equality, ordering and hashing of `DateTime` values depend only
on the stored UTC-reference naive date-time: two zoned values (in possibly
different zone types) compare equal exactly when their UTC-reference naive
date-times are equal, their ordering is the ordering of those naive values,
the hasher is fed only the UTC-reference value, and replacing the zone values
by any others changes neither equality nor ordering. -/
theorem datetime_eq_ord_hash_only_utc :
    ∀ {A B : Type} (a : DateTime A) (b : DateTime B),
      (DateTime.beq a b = true ↔ a.utc_datetime = b.utc_datetime)
    ∧ DateTime.cmp a b = NaiveDateTime.cmp a.utc_datetime b.utc_datetime
    ∧ (∀ (hasher : NaiveDateTime → Nat → Nat) (state : Nat),
        DateTime.hash hasher a state = hasher a.utc_datetime state)
    ∧ (∀ (C D : Type) (z1 : C) (z2 : D),
        DateTime.beq (DateTime.from_utc a.utc_datetime z1) (DateTime.from_utc b.utc_datetime z2)
            = DateTime.beq a b
        ∧ DateTime.cmp (DateTime.from_utc a.utc_datetime z1) (DateTime.from_utc b.utc_datetime z2)
            = DateTime.cmp a b) := by
  intro A B a b
  exact ⟨ndt_beq_iff a.utc_datetime b.utc_datetime, rfl, fun _ _ => rfl,
    fun _ _ _ _ => ⟨rfl, rfl⟩⟩

/-- Witness for claim C7: a `DateTime` in the UTC zone and one in a fixed
+5-hour offset zone, holding the same UTC-reference value, compare equal. -/
theorem datetime_eq_ord_hash_only_utc_witness :
    DateTime.beq
      (DateTime.from_utc ⟨⟨2000, Month.january, 1⟩, Time.midnight⟩ (⟨⟩ : Utc))
      (DateTime.from_utc ⟨⟨2000, Month.january, 1⟩, Time.midnight⟩ (UtcOffset.from_seconds 18000))
      = true :=
  (datetime_eq_ord_hash_only_utc
      (DateTime.from_utc ⟨⟨2000, Month.january, 1⟩, Time.midnight⟩ (⟨⟩ : Utc))
      (DateTime.from_utc ⟨⟨2000, Month.january, 1⟩, Time.midnight⟩
        (UtcOffset.from_seconds 18000))).1.mpr rfl

/-- Claim C8: the claim says the error of `add_years` names the non-leap
target year (2021 for 2020-02-29 plus one year).  The code errors exactly on
that input, but the error it builds carries `self.year`, the starting year
2020 — which is itself a leap year, contradicting the error's meaning. -/
theorem add_years_error_names_start_year :
    Date.add_years ⟨2020, Month.february, 29⟩ 1 = .error ⟨2020⟩
  ∧ Date.add_years ⟨2020, Month.february, 29⟩ 1 ≠ .error ⟨2021⟩
  ∧ Year.is_leap_year 2020 = true := by
  refine ⟨rfl, ?_, by decide⟩
  rw [show Date.add_years ⟨2020, Month.february, 29⟩ 1 = .error ⟨2020⟩ from rfl]
  simp

/-- Claim C9: the claim says `add_days` reports, via an explicit carry flag,
when the day-count arithmetic leaves the representable year range.  The code's
`add_days` returns a bare `Date` with no flag, and at 32767-12-31 plus one day
— whose true result is outside the year range — it silently returns
32767-12-02, a date whose day-count is not the starting day-count plus one. -/
theorem add_days_silently_wraps :
    Date.add_days ⟨32767, Month.december, 31⟩ 1 = ⟨32767, Month.december, 2⟩
  ∧ Date.days_after_common_era (Date.add_days ⟨32767, Month.december, 31⟩ 1)
      ≠ Date.days_after_common_era ⟨32767, Month.december, 31⟩ + 1 :=
  ⟨by decide, by decide⟩

/-- Claim C10: the claim says `Timestamp::add_nanoseconds_overflowing` shifts
the instant by exactly the given nanoseconds when the true result is
representable.  Adding 0 nanoseconds to the timestamp at 60 seconds returns
the timestamp at 0 seconds with overflow flag `false`: the total seconds are
reduced modulo 60. -/
theorem timestamp_add_nanoseconds_drops_minutes :
    Timestamp.add_nanoseconds_overflowing ⟨60, 0⟩ 0 = (⟨0, 0⟩, false)
  ∧ (Timestamp.add_nanoseconds_overflowing ⟨60, 0⟩ 0).1.seconds * 1000000000
        + (Timestamp.add_nanoseconds_overflowing ⟨60, 0⟩ 0).1.nanoseconds
      ≠ (60 : Int) * 1000000000 + 0 + 0 :=
  ⟨by decide, by decide⟩

end Botic
